import Mathlib

/-!
Verification of the Euphoriae audio effects engine
(`app/src/main/engine/audio_engine.cpp` / `audio_engine.h`).

The engine mutates interleaved float sample buffers in place. The model uses
exact real arithmetic (`ℝ`) for the float computations, `ℤ` for the C++
`int`/`int32_t` values, and represents an interleaved buffer of
`numFrames × channelCount` samples as a `List ℝ`. Circular delay buffers are
modelled as total functions `ℤ → ℝ` read and written at exactly the indices
the C++ code computes, so index-range facts are stated about those index
computations. C++ `%` on `int` is truncated division remainder, i.e.
`Int.tmod`; `static_cast<int>` on a float truncates toward zero.
-/

noncomputable section

open scoped Classical

/-- C++ `std::clamp(v, lo, hi)` on floats (for `lo ≤ hi`). -/
def cppClamp (v lo hi : ℝ) : ℝ := min (max v lo) hi

/-- C++ `std::clamp(v, lo, hi)` on ints (for `lo ≤ hi`). -/
def cppClampInt (v lo hi : ℤ) : ℤ := min (max v lo) hi

/-- C++ `static_cast<int>` of a float: truncation toward zero. -/
def cppTrunc (x : ℝ) : ℤ := if 0 ≤ x then ⌊x⌋ else -⌊-x⌋

/-- `kMaxDelayFrames` from `audio_engine.h`: capacity of each 3D-surround
delay buffer. -/
def kMaxDelayFrames : ℤ := 2048

/-- `kReverbBufferSize` from `audio_engine.h`: capacity of each reverb comb
and allpass buffer. -/
def kReverbBufferSize : ℤ := 8192

/-- `kNumEqualizerBands` from `audio_engine.h`. -/
def kNumEqualizerBands : ℤ := 10

/-- The engine parameter store: one field per `std::atomic` knob member of
`AudioEngine`. The `mLoudnessGain` and `mDynamicRange` members are used by
`audio_engine.cpp` but their declarations are not in the header file present
under `src/`; they are modelled here as further float knobs (their setter
bodies are in `audio_engine.cpp`). -/
structure Params where
  volume : ℝ
  bassBoost : ℝ
  virtualizer : ℝ
  compressorStrength : ℝ
  compressorThreshold : ℝ
  compressorRatio : ℝ
  compressorAttack : ℝ
  compressorRelease : ℝ
  limiterCeiling : ℝ
  surround3D : ℝ
  roomSize : ℝ
  surroundLevel : ℝ
  surroundMode : ℤ
  headphoneSurround : Bool
  headphoneType : ℤ
  clarity : ℝ
  tubeWarmth : ℝ
  spectrumExtension : ℝ
  trebleBoost : ℝ
  volumeLeveler : ℝ
  stereoBalance : ℝ
  channelSeparation : ℝ
  reverbPreset : ℤ
  reverbWet : ℝ
  tempo : ℝ
  pitchSemitones : ℝ
  pitchRatio : ℝ
  loudnessGain : ℝ
  dynamicRange : ℝ
  equalizerBands : ℤ → ℝ

/-- The default parameter values, from the member initializers in
`audio_engine.h` (`loudnessGain`/`dynamicRange` have no header declaration in
`src/`; they are initialized here to the neutral values 0 and 1, which no
theorem below depends on). -/
def defaultParams : Params where
  volume := 1
  bassBoost := 0
  virtualizer := 0
  compressorStrength := 0
  compressorThreshold := -10
  compressorRatio := 4
  compressorAttack := 0.01
  compressorRelease := 0.1
  limiterCeiling := 0.95
  surround3D := 0
  roomSize := 0.5
  surroundLevel := 0.5
  surroundMode := 0
  headphoneSurround := false
  headphoneType := 0
  clarity := 0
  tubeWarmth := 0
  spectrumExtension := 0
  trebleBoost := 0
  volumeLeveler := 0
  stereoBalance := 0
  channelSeparation := 0.5
  reverbPreset := 0
  reverbWet := 0
  tempo := 1
  pitchSemitones := 0
  pitchRatio := 1
  loudnessGain := 0
  dynamicRange := 1
  equalizerBands := fun _ => 0

-- ================== Setters (audio_engine.cpp lines 167-311) ==================

def setVolume (e : Params) (v : ℝ) : Params :=
  { e with volume := cppClamp v 0 2 }

def setBassBoost (e : Params) (strength : ℝ) : Params :=
  { e with bassBoost := cppClamp strength 0 1 }

def setVirtualizer (e : Params) (strength : ℝ) : Params :=
  { e with virtualizer := cppClamp strength 0 1 }

/-- `setEqualizerBand`: the band index is validated (out-of-range indices are
ignored); the gain is clamped to [-12, 12] dB. -/
def setEqualizerBand (e : Params) (band : ℤ) (gainDb : ℝ) : Params :=
  if 0 ≤ band ∧ band < kNumEqualizerBands then
    { e with equalizerBands := Function.update e.equalizerBands band (cppClamp gainDb (-12) 12) }
  else e

/-- `setCompressor` stores all four values without any clamping. -/
def setCompressor (e : Params) (threshold ratioIn attack release : ℝ) : Params :=
  { e with compressorThreshold := threshold, compressorRatio := ratioIn,
           compressorAttack := attack, compressorRelease := release }

/-- `setCompressorStrength` clamps the strength knob, then derives threshold
and a compression slope from the UNCLAMPED input. -/
def setCompressorStrength (e : Params) (strength : ℝ) : Params :=
  { e with compressorStrength := cppClamp strength 0 1,
           compressorThreshold := -20 + strength * 10,
           compressorRatio := 1 + strength * 7 }

def setLimiter (e : Params) (ceiling : ℝ) : Params :=
  { e with limiterCeiling := cppClamp ceiling 0.5 1 }

def setSurround3D (e : Params) (depth : ℝ) : Params :=
  { e with surround3D := cppClamp depth 0 1 }

def setRoomSize (e : Params) (size : ℝ) : Params :=
  { e with roomSize := cppClamp size 0 1 }

def setSurroundLevel (e : Params) (level : ℝ) : Params :=
  { e with surroundLevel := cppClamp level 0 1 }

/-- `setSurroundMode`: stores the clamped mode, then applies the per-mode
preset values via a `switch` on the UNCLAMPED mode (no `default` case). -/
def setSurroundMode (e : Params) (mode : ℤ) : Params :=
  let e1 := { e with surroundMode := cppClampInt mode 0 4 }
  if mode = 0 then { e1 with surround3D := 0 }
  else if mode = 1 then { e1 with surround3D := 0.4, roomSize := 0.3, surroundLevel := 0.5 }
  else if mode = 2 then { e1 with surround3D := 0.7, roomSize := 0.7, surroundLevel := 0.6 }
  else if mode = 3 then { e1 with surround3D := 0.8, roomSize := 0.4, surroundLevel := 0.7,
                                  headphoneSurround := true }
  else if mode = 4 then { e1 with surround3D := 0.2, roomSize := 0.2, surroundLevel := 0.3 }
  else e1

def setHeadphoneSurround (e : Params) (enabled : Bool) : Params :=
  { e with headphoneSurround := enabled }

def setHeadphoneType (e : Params) (type : ℤ) : Params :=
  { e with headphoneType := cppClampInt type 0 4 }

def setClarity (e : Params) (level : ℝ) : Params :=
  { e with clarity := cppClamp level 0 1 }

def setTubeWarmth (e : Params) (warmth : ℝ) : Params :=
  { e with tubeWarmth := cppClamp warmth 0 1 }

def setSpectrumExtension (e : Params) (level : ℝ) : Params :=
  { e with spectrumExtension := cppClamp level 0 1 }

def setStereoBalance (e : Params) (balance : ℝ) : Params :=
  { e with stereoBalance := cppClamp balance (-1) 1 }

def setChannelSeparation (e : Params) (separation : ℝ) : Params :=
  { e with channelSeparation := cppClamp separation 0 1 }

def setTrebleBoost (e : Params) (level : ℝ) : Params :=
  { e with trebleBoost := cppClamp level 0 1 }

def setVolumeLeveler (e : Params) (level : ℝ) : Params :=
  { e with volumeLeveler := cppClamp level 0 1 }

def setTempo (e : Params) (tempo : ℝ) : Params :=
  { e with tempo := cppClamp tempo 0.5 2 }

/-- `setPitch`: the stored semitone knob is clamped; the derived pitch ratio
is computed from the UNCLAMPED input. -/
def setPitch (e : Params) (semitones : ℝ) : Params :=
  { e with pitchSemitones := cppClamp semitones (-12) 12,
           pitchRatio := (2 : ℝ) ^ (semitones / 12) }

def setDynamicRange (e : Params) (range : ℝ) : Params :=
  let e1 := { e with dynamicRange := cppClamp range 0 1 }
  let compressionAmount := 1 - range
  if compressionAmount > 0.01 then
    { e1 with compressorStrength := compressionAmount * 0.7,
              compressorThreshold := -20 + range * 10,
              compressorRatio := 1 + (1 - range) * 7 }
  else e1

def setLoudnessGain (e : Params) (gain : ℝ) : Params :=
  { e with loudnessGain := cppClamp gain 0 1 }

def setReverb (e : Params) (preset : ℤ) (wetMix : ℝ) : Params :=
  { e with reverbPreset := cppClampInt preset 0 6,
           reverbWet := cppClamp wetMix 0 1 }

-- ================== Processing state ==================

/-- The persistent per-channel / per-effect processing state of the engine
(the non-atomic members of `AudioEngine`). Delay buffers are total functions
`ℤ → ℝ`; the code only ever reads and writes them at the indices computed by
the cursor arithmetic modelled below. -/
structure PState where
  bassState : ℝ × ℝ
  trebleState : ℝ × ℝ
  clarityState : ℝ × ℝ
  harmonicState : ℝ × ℝ
  compressorEnvelope : ℝ
  rmsLevel : ℝ
  delayBufferL : ℤ → ℝ
  delayBufferR : ℤ → ℝ
  delayWritePos : ℤ
  combBuffer1 : ℤ → ℝ
  combBuffer2 : ℤ → ℝ
  combBuffer3 : ℤ → ℝ
  combBuffer4 : ℤ → ℝ
  allpassBuffer1 : ℤ → ℝ
  allpassBuffer2 : ℤ → ℝ
  combPos1 : ℤ
  combPos2 : ℤ
  combPos3 : ℤ
  combPos4 : ℤ
  allpassPos1 : ℤ
  allpassPos2 : ℤ

/-- The zero-initialized state the engine is constructed with. -/
def initState : PState where
  bassState := (0, 0)
  trebleState := (0, 0)
  clarityState := (0, 0)
  harmonicState := (0, 0)
  compressorEnvelope := 0
  rmsLevel := 0
  delayBufferL := fun _ => 0
  delayBufferR := fun _ => 0
  delayWritePos := 0
  combBuffer1 := fun _ => 0
  combBuffer2 := fun _ => 0
  combBuffer3 := fun _ => 0
  combBuffer4 := fun _ => 0
  allpassBuffer1 := fun _ => 0
  allpassBuffer2 := fun _ => 0
  combPos1 := 0
  combPos2 := 0
  combPos3 := 0
  combPos4 := 0
  allpassPos1 := 0
  allpassPos2 := 0

-- ================== Per-frame loop machinery ==================

/-- Runs a per-frame step over an interleaved buffer: each of `numFrames`
iterations takes the next `cc` samples (one frame), rewrites them, and
threads the stage state. Mirrors the C++ `for (i = 0; i < numFrames; i++)`
loops over a buffer of `numFrames * cc` samples. -/
def runFrames {σ : Type} (cc : ℕ) (step : σ → List ℝ → List ℝ × σ) :
    ℕ → σ → List ℝ → List ℝ × σ
  | 0, s, buf => (buf, s)
  | n + 1, s, buf =>
    let fr := step s (List.take cc buf)
    let rest := runFrames cc step n fr.2 (List.drop cc buf)
    (fr.1 ++ rest.1, rest.2)

/-- The shared shape of the per-channel tone-shaping loops
(`for (ch = 0; ch < std::min(channelCount, 2); ch++)`): channels 0 and 1 of a
frame are processed with their own filter state by `f state sample =
(outSample, newState)`; any further channels pass through untouched. -/
def chanFrame (f : ℝ → ℝ → ℝ × ℝ) (s : ℝ × ℝ) : List ℝ → List ℝ × (ℝ × ℝ)
  | [] => ([], s)
  | [x0] =>
    let r0 := f s.1 x0
    ([r0.1], (r0.2, s.2))
  | x0 :: x1 :: rest =>
    let r0 := f s.1 x0
    let r1 := f s.2 x1
    (r0.1 :: r1.1 :: rest, (r0.2, r1.2))

-- ================== DSP stages (audio_engine.cpp lines 315-826) ==================

/-- `applyBassBoost`: one-pole low-pass bass extraction added back scaled. -/
def applyBassBoost (strength : ℝ) (numFrames cc : ℕ) (s : ℝ × ℝ) (buf : List ℝ) :
    List ℝ × (ℝ × ℝ) :=
  let alpha := 0.15 + strength * 0.15
  let boost := 1 + strength * 2
  runFrames cc (fun s fr => chanFrame (fun st x =>
    let ns := st + alpha * (x - st)
    (x + ns * (boost - 1), ns)) s fr) numFrames s buf

/-- `applyTrebleBoost`: one-pole high-pass treble extraction added back. -/
def applyTrebleBoost (strength : ℝ) (numFrames cc : ℕ) (s : ℝ × ℝ) (buf : List ℝ) :
    List ℝ × (ℝ × ℝ) :=
  let alpha := 0.9 - strength * 0.2
  let boost := strength * 1.5
  runFrames cc (fun s fr => chanFrame (fun st x =>
    (x + (x - alpha * st - (1 - alpha) * x) * boost, x)) s fr) numFrames s buf

/-- `applyClarity`: high-pass presence extraction added back. -/
def applyClarity (level : ℝ) (numFrames cc : ℕ) (s : ℝ × ℝ) (buf : List ℝ) :
    List ℝ × (ℝ × ℝ) :=
  let alpha := (0.85 : ℝ)
  let boost := level * 2
  runFrames cc (fun s fr => chanFrame (fun st x =>
    (x + (x - st * alpha) * boost, x)) s fr) numFrames s buf

/-- `applySpectrumExtension`: rectification-based harmonic generator,
high-passed and mixed back in. -/
def applySpectrumExtension (level : ℝ) (numFrames cc : ℕ) (s : ℝ × ℝ) (buf : List ℝ) :
    List ℝ × (ℝ × ℝ) :=
  runFrames cc (fun s fr => chanFrame (fun st x =>
    let harmonic := max 0 (|x| - 0.5) * 2
    (x + (harmonic - st * 0.95) * level * 0.3, harmonic)) s fr) numFrames s buf

/-- The per-sample asymmetric tube waveshaper of `applyTubeWarmth`. -/
def tubeSample (warmth : ℝ) (x : ℝ) : ℝ :=
  let drive := 1 + warmth * 3
  let driven := x * drive
  let shaped := if driven > 0 then Real.tanh (driven * 0.8) / 0.8
                else Real.tanh (driven * 1.2) / 1.2
  x * (1 - warmth) + shaped * warmth / drive

/-- `applyTubeWarmth`: stateless per-sample waveshaping over the flat buffer. -/
def applyTubeWarmth (warmth : ℝ) (buf : List ℝ) : List ℝ :=
  buf.map (tubeSample warmth)

/-- `applyEqualizer`: "has gain" check — some band magnitude exceeds 0.1 dB. -/
def eqHasGain (bands : ℤ → ℝ) : Prop :=
  ∃ i ∈ List.range 10, |bands (i : ℤ)| > 0.1

/-- `applyEqualizer`: the accumulated `totalGain` — the sum of exactly those
band gains whose magnitude exceeds 0.1 dB. -/
def eqTotalGain (bands : ℤ → ℝ) : ℝ :=
  ((List.range 10).map (fun i => bands (i : ℤ))).foldl
    (fun acc g => if |g| > 0.1 then acc + g else acc) 0

/-- `applyEqualizer`: a single uniform linear gain
`10 ^ ((totalGain / 10) / 20)` applied to every sample, or a no-op when no
band magnitude exceeds 0.1 dB. -/
def applyEqualizer (bands : ℤ → ℝ) (buf : List ℝ) : List ℝ :=
  if eqHasGain bands then
    buf.map (fun x => x * (10 : ℝ) ^ ((eqTotalGain bands / 10) / 20))
  else buf

/-- `applyCompressor`: per-frame peak detection, attack/release envelope
follower, and downward gain above the linear threshold, applied to all
channels of the frame. -/
def applyCompressor (threshold ratioIn attack release : ℝ) (numFrames cc : ℕ)
    (env : ℝ) (buf : List ℝ) : List ℝ × ℝ :=
  let thresholdLin := (10 : ℝ) ^ (threshold / 20)
  let attackCoef := Real.exp (-1 / (attack * 48000))
  let releaseCoef := Real.exp (-1 / (release * 48000))
  runFrames cc (fun env fr =>
    let inputLevel := fr.foldl (fun m x => max m |x|) 0
    let env2 := if inputLevel > env then attackCoef * env + (1 - attackCoef) * inputLevel
                else releaseCoef * env + (1 - releaseCoef) * inputLevel
    let gain := if env2 > thresholdLin then (env2 / thresholdLin) ^ (1 / ratioIn - 1)
                else (1 : ℝ)
    (fr.map (fun x => x * gain), env2)) numFrames env buf

/-- The loudness makeup gain factor `1.0f + loudnessGain * 1.5f` computed
inline in `processAudio` (the adjacent comment reads "Up to +6dB gain"). -/
def loudnessGainFactor (loudnessGain : ℝ) : ℝ := 1 + loudnessGain * 1.5

/-- The per-sample soft ceiling of `applyLimiter`. -/
def limiterSample (ceiling x : ℝ) : ℝ :=
  if |x| > ceiling then ceiling * Real.tanh (x / ceiling) else x

/-- `applyLimiter` over the flat buffer. -/
def applyLimiter (ceiling : ℝ) (buf : List ℝ) : List ℝ :=
  buf.map (limiterSample ceiling)

/-- `applyVolume` over the flat buffer. -/
def applyVolume (volume : ℝ) (buf : List ℝ) : List ℝ :=
  buf.map (fun x => x * volume)

/-- `mTargetRms` from the header. -/
def targetRms : ℝ := 0.3

/-- `applyVolumeLeveler`: buffer RMS, 99%/1% smoothing into the running RMS
state, and a strength-blended gain toward the target RMS (clamped to
[0.1, 4]); returns the new running RMS. -/
def applyVolumeLeveler (strength : ℝ) (numFrames cc : ℕ) (rmsLevel : ℝ) (buf : List ℝ) :
    List ℝ × ℝ :=
  let numSamples : ℕ := numFrames * cc
  let sumSquares := (buf.map (fun x => x * x)).sum
  let rms := Real.sqrt (sumSquares / (numSamples : ℝ))
  let rmsLevel2 := rmsLevel * 0.99 + rms * 0.01
  if rmsLevel2 > 0.001 then
    let targetGain := cppClamp (targetRms / rmsLevel2) 0.1 4
    let gain := 1 + (targetGain - 1) * strength
    (buf.map (fun x => x * gain), rmsLevel2)
  else (buf, rmsLevel2)

/-- `applyVirtualizer` (stereo only): cross-channel subtraction. -/
def applyVirtualizer (strength : ℝ) (numFrames : ℕ) (buf : List ℝ) : List ℝ :=
  let crossMix := strength * 0.5
  let directGain := 1 + strength * 0.2
  (runFrames 2 (fun (_ : Unit) fr =>
    (match fr with
     | l :: r :: rest => (l * directGain - r * crossMix) :: (r * directGain - l * crossMix) :: rest
     | other => other, ())) numFrames () buf).1

/-- `applyChannelSeparation` (stereo only): cross-mix blend between mono sum
and full separation. -/
def applyChannelSeparation (separation : ℝ) (numFrames : ℕ) (buf : List ℝ) : List ℝ :=
  let crossMix := (1 - separation) * 0.5
  let directGain := 0.5 + separation * 0.5
  (runFrames 2 (fun (_ : Unit) fr =>
    (match fr with
     | l :: r :: rest => (l * directGain + r * crossMix) :: (r * directGain + l * crossMix) :: rest
     | other => other, ())) numFrames () buf).1

/-- `applyStereoBalance` (stereo only). The initial equal-power `cos`/`sin`
assignments in the source are dead: both branches of the following
`if (balance < 0)` overwrite both gains, leaving linear attenuation of the
quieter side. -/
def applyStereoBalance (balance : ℝ) (numFrames : ℕ) (buf : List ℝ) : List ℝ :=
  let leftGain := if balance < 0 then (1 : ℝ) else 1 - balance
  let rightGain := if balance < 0 then 1 + balance else (1 : ℝ)
  (runFrames 2 (fun (_ : Unit) fr =>
    (match fr with
     | l :: r :: rest => (l * leftGain) :: (r * rightGain) :: rest
     | other => other, ())) numFrames () buf).1

-- ================== 3D surround (audio_engine.cpp lines 457-563) ==================

/-- Headphone-type crossfeed amount (base 0.3; per-type values only when
headphone surround is enabled; the `switch` has no `default`). -/
def headphoneCrossfeed (hp : Bool) (t : ℤ) : ℝ :=
  if hp then
    if t = 0 then 0.25 else if t = 1 then 0.20 else if t = 2 then 0.35
    else if t = 3 then 0.15 else if t = 4 then 0.28 else 0.3
  else 0.3

/-- Headphone-type delay multiplier (base 1.0). -/
def headphoneDelayMultiplier (hp : Bool) (t : ℤ) : ℝ :=
  if hp then
    if t = 0 then 1.0 else if t = 1 then 0.7 else if t = 2 then 1.2
    else if t = 3 then 1.5 else if t = 4 then 1.0 else 1.0
  else 1.0

/-- Headphone-type bass emphasis (nonzero only for in-ear, type 1). -/
def headphoneBassEnhance (hp : Bool) (t : ℤ) : ℝ :=
  if hp ∧ t = 1 then 0.15 else 0

/-- Headphone-type high-frequency emphasis (over-ear 0.1, studio 0.05). -/
def headphoneHighFreqBoost (hp : Bool) (t : ℤ) : ℝ :=
  if hp ∧ t = 2 then 0.1 else if hp ∧ t = 4 then 0.05 else 0

/-- The room-size delay request of `applySurround3D`, BEFORE the `std::min`
clamp: `static_cast<int>((0.5f + roomSize * 29.5f) * 48.0f * delayMultiplier)`. -/
def surroundDelayRaw (roomSize delayMultiplier : ℝ) : ℤ :=
  cppTrunc ((0.5 + roomSize * 29.5) * 48.0 * delayMultiplier)

/-- The ITD delay request of `applySurround3D`, BEFORE the `std::min` clamp. -/
def itdDelayRaw (delayMultiplier : ℝ) : ℤ :=
  cppTrunc (15.0 * delayMultiplier)

/-- Surround delay-line read index:
`(mDelayWritePos - delay + kMaxDelayFrames) % kMaxDelayFrames` (C++ `%` on
`int` is `Int.tmod`). -/
def surroundReadPos (pos delay : ℤ) : ℤ :=
  (pos - delay + kMaxDelayFrames).tmod kMaxDelayFrames

/-- Surround write-cursor advance: `(mDelayWritePos + 1) % kMaxDelayFrames`. -/
def surroundAdvance (pos : ℤ) : ℤ :=
  (pos + 1).tmod kMaxDelayFrames

/-- One frame of `applySurround3D`: delayed cross-feed, optional ITD
cross-feed and headphone-specific bass/treble emphasis, then the delay-line
write and cursor advance. -/
def surroundStep (delayFrames itdDelay : ℤ) (crossGain itdGain bassEnhance highFreqBoost
    effectStrength : ℝ) (hp : Bool) (st : PState) (frame : List ℝ) : List ℝ × PState :=
  match frame with
  | l :: r :: rest =>
    let readPos := surroundReadPos st.delayWritePos delayFrames
    let delayedL := st.delayBufferL readPos
    let delayedR := st.delayBufferR readPos
    let itdReadPos := surroundReadPos st.delayWritePos itdDelay
    let itdDelayedL := st.delayBufferL itdReadPos
    let itdDelayedR := st.delayBufferR itdReadPos
    let st2 := { st with
      delayBufferL := Function.update st.delayBufferL st.delayWritePos l,
      delayBufferR := Function.update st.delayBufferR st.delayWritePos r,
      delayWritePos := surroundAdvance st.delayWritePos }
    let newLeft := l + delayedR * crossGain
    let newRight := r + delayedL * crossGain
    let nl1 := if hp then newLeft + itdDelayedR * itdGain else newLeft
    let nr1 := if hp then newRight + itdDelayedL * itdGain else newRight
    let bass := (l + r) * 0.5 * bassEnhance * effectStrength
    let nl2 := if hp ∧ bassEnhance > 0 then nl1 + bass else nl1
    let nr2 := if hp ∧ bassEnhance > 0 then nr1 + bass else nr1
    let diff := (l - r) * highFreqBoost * effectStrength
    let nl3 := if hp ∧ highFreqBoost > 0 then nl2 + diff else nl2
    let nr3 := if hp ∧ highFreqBoost > 0 then nr2 - diff else nr2
    (nl3 :: nr3 :: rest, st2)
  | other => (other, st)

/-- `applySurround3D` (invoked by `processAudio` only for stereo buffers). -/
def applySurround3D (depth roomSize surroundLevel : ℝ) (hp : Bool) (hType : ℤ)
    (numFrames : ℕ) (st : PState) (buf : List ℝ) : List ℝ × PState :=
  let effectStrength := depth * (0.5 + surroundLevel * 0.5)
  let delayMultiplier := headphoneDelayMultiplier hp hType
  let delayFrames := min (surroundDelayRaw roomSize delayMultiplier) (kMaxDelayFrames - 1)
  let itdDelay := min (itdDelayRaw delayMultiplier) (kMaxDelayFrames - 1)
  runFrames 2 (surroundStep delayFrames itdDelay
    (effectStrength * headphoneCrossfeed hp hType) (effectStrength * 0.15)
    (headphoneBassEnhance hp hType) (headphoneHighFreqBoost hp hType)
    effectStrength hp) numFrames st buf

-- ================== Reverb (audio_engine.cpp lines 708-826) ==================

/-- One reverb preset: 4 comb delays/decays and 2 allpass delays. -/
structure ReverbConfig where
  combDelay1 : ℤ
  combDelay2 : ℤ
  combDelay3 : ℤ
  combDelay4 : ℤ
  combDecay1 : ℝ
  combDecay2 : ℝ
  combDecay3 : ℝ
  combDecay4 : ℝ
  allpassDelay1 : ℤ
  allpassDelay2 : ℤ

/-- The per-preset reverb parameters (`switch (preset)`; case 6 and `default`
share the Plate values). -/
def reverbConfig (preset : ℤ) : ReverbConfig :=
  if preset = 1 then ⟨557, 617, 709, 811, 0.7, 0.68, 0.66, 0.64, 113, 271⟩
  else if preset = 2 then ⟨1117, 1277, 1487, 1687, 0.78, 0.76, 0.74, 0.72, 211, 379⟩
  else if preset = 3 then ⟨1557, 1777, 2087, 2387, 0.82, 0.80, 0.78, 0.76, 307, 491⟩
  else if preset = 4 then ⟨2001, 2287, 2647, 3001, 0.86, 0.84, 0.82, 0.80, 403, 607⟩
  else if preset = 5 then ⟨2777, 3167, 3607, 4091, 0.90, 0.88, 0.86, 0.84, 509, 797⟩
  else ⟨1367, 1559, 1783, 2017, 0.92, 0.91, 0.90, 0.89, 157, 331⟩

/-- Reverb buffer read index:
`(pos - delay + kReverbBufferSize) % kReverbBufferSize`. -/
def reverbReadPos (pos delay : ℤ) : ℤ :=
  (pos - delay + kReverbBufferSize).tmod kReverbBufferSize

/-- Reverb cursor advance: `(pos + 1) % kReverbBufferSize`. -/
def reverbAdvance (pos : ℤ) : ℤ :=
  (pos + 1).tmod kReverbBufferSize

/-- One frame of `applyReverb`: mono downmix into 4 parallel feedback combs
(averaged) and 2 series allpasses, wet/dry mixed into every channel. -/
def reverbStep (cfg : ReverbConfig) (wetMix dryMix : ℝ) (cc : ℕ) (st : PState)
    (frame : List ℝ) : List ℝ × PState :=
  let input := frame.sum / (cc : ℝ)
  let comb1 := st.combBuffer1 (reverbReadPos st.combPos1 cfg.combDelay1)
  let comb2 := st.combBuffer2 (reverbReadPos st.combPos2 cfg.combDelay2)
  let comb3 := st.combBuffer3 (reverbReadPos st.combPos3 cfg.combDelay3)
  let comb4 := st.combBuffer4 (reverbReadPos st.combPos4 cfg.combDelay4)
  let combOut := (comb1 + comb2 + comb3 + comb4) * 0.25
  let ap1Delayed := st.allpassBuffer1 (reverbReadPos st.allpassPos1 cfg.allpassDelay1)
  let ap1Out := ap1Delayed - 0.5 * combOut
  let ap2Delayed := st.allpassBuffer2 (reverbReadPos st.allpassPos2 cfg.allpassDelay2)
  let ap2Out := ap2Delayed - 0.5 * ap1Out
  let st2 := { st with
    combBuffer1 := Function.update st.combBuffer1 st.combPos1 (input + comb1 * cfg.combDecay1),
    combBuffer2 := Function.update st.combBuffer2 st.combPos2 (input + comb2 * cfg.combDecay2),
    combBuffer3 := Function.update st.combBuffer3 st.combPos3 (input + comb3 * cfg.combDecay3),
    combBuffer4 := Function.update st.combBuffer4 st.combPos4 (input + comb4 * cfg.combDecay4),
    allpassBuffer1 := Function.update st.allpassBuffer1 st.allpassPos1 (combOut + 0.5 * ap1Out),
    allpassBuffer2 := Function.update st.allpassBuffer2 st.allpassPos2 (ap1Out + 0.5 * ap2Out),
    combPos1 := reverbAdvance st.combPos1,
    combPos2 := reverbAdvance st.combPos2,
    combPos3 := reverbAdvance st.combPos3,
    combPos4 := reverbAdvance st.combPos4,
    allpassPos1 := reverbAdvance st.allpassPos1,
    allpassPos2 := reverbAdvance st.allpassPos2 }
  (frame.map (fun x => x * dryMix + ap2Out * wetMix), st2)

/-- `applyReverb`: complete no-op for preset 0 or wet mix below 0.01 (no
buffer read/write, no cursor advance); otherwise the Schroeder network. -/
def applyReverb (preset : ℤ) (wetMix : ℝ) (numFrames cc : ℕ) (st : PState)
    (buf : List ℝ) : List ℝ × PState :=
  if preset = 0 ∨ wetMix < 0.01 then (buf, st)
  else
    let cfg := reverbConfig preset
    let dryMix := 1 - wetMix * 0.5
    runFrames cc (reverbStep cfg wetMix dryMix cc) numFrames st buf

-- ================== The chain (processAudio, lines 43-163) ==================

/-- Stages 1-10 of `processAudio` (everything before the master volume),
with each stage's cheap skip condition as in the source. `numFrames` and `cc`
are the already-validated counts as naturals. -/
def processToLimiter (p : Params) (st : PState) (buf : List ℝ) (numFrames cc : ℕ) :
    List ℝ × PState :=
  let r1 :=
    if p.volumeLeveler > 0.01 then
      let v := applyVolumeLeveler p.volumeLeveler numFrames cc st.rmsLevel buf
      (v.1, { st with rmsLevel := v.2 })
    else (buf, st)
  let r2 :=
    if p.bassBoost > 0.01 then
      let v := applyBassBoost p.bassBoost numFrames cc r1.2.bassState r1.1
      (v.1, { r1.2 with bassState := v.2 })
    else r1
  let r3 :=
    if p.trebleBoost > 0.01 then
      let v := applyTrebleBoost p.trebleBoost numFrames cc r2.2.trebleState r2.1
      (v.1, { r2.2 with trebleState := v.2 })
    else r2
  let r4 := (applyEqualizer p.equalizerBands r3.1, r3.2)
  let r5 :=
    if p.clarity > 0.01 then
      let v := applyClarity p.clarity numFrames cc r4.2.clarityState r4.1
      (v.1, { r4.2 with clarityState := v.2 })
    else r4
  let r6 := if p.tubeWarmth > 0.01 then (applyTubeWarmth p.tubeWarmth r5.1, r5.2) else r5
  let r7 :=
    if p.spectrumExtension > 0.01 then
      let v := applySpectrumExtension p.spectrumExtension numFrames cc r6.2.harmonicState r6.1
      (v.1, { r6.2 with harmonicState := v.2 })
    else r6
  let r8 :=
    if p.compressorStrength > 0.01 then
      let v := applyCompressor p.compressorThreshold p.compressorRatio p.compressorAttack
        p.compressorRelease numFrames cc r7.2.compressorEnvelope r7.1
      (v.1, { r7.2 with compressorEnvelope := v.2 })
    else r7
  let r9 := if p.loudnessGain > 0.01 then
      ((r8.1).map (fun x => x * loudnessGainFactor p.loudnessGain), r8.2)
    else r8
  let r10 := if 0 < p.reverbPreset then
      applyReverb p.reverbPreset p.reverbWet numFrames cc r9.2 r9.1
    else r9
  let r11 :=
    if cc = 2 then
      let s1 := if p.virtualizer > 0.01 then
          (applyVirtualizer p.virtualizer numFrames r10.1, r10.2)
        else r10
      let s2 := if p.surround3D > 0.01 then
          applySurround3D p.surround3D p.roomSize p.surroundLevel p.headphoneSurround
            p.headphoneType numFrames s1.2 s1.1
        else s1
      let s3 := if |p.channelSeparation - 0.5| > 0.01 then
          (applyChannelSeparation p.channelSeparation numFrames s2.1, s2.2)
        else s2
      if |p.stereoBalance| > 0.01 then
        (applyStereoBalance p.stereoBalance numFrames s3.1, s3.2)
      else s3
    else r10
  (applyLimiter p.limiterCeiling r11.1, r11.2)

/-- Stages 1-11 of `processAudio`: the chain through the master volume — the
"pre-clip output". -/
def processPreClip (p : Params) (st : PState) (buf : List ℝ) (numFrames cc : ℕ) :
    List ℝ × PState :=
  let r := processToLimiter p st buf numFrames cc
  if |p.volume - 1| > 0.001 then (applyVolume p.volume r.1, r.2) else r

/-- `processAudio`: no-op for a non-positive frame count, otherwise the full
chain followed by the unconditional final hard clip of every sample to
[-1, 1]. (A null buffer pointer, the other no-op condition, has no
counterpart for a `List` buffer.) -/
def processAudio (p : Params) (st : PState) (buf : List ℝ) (numFrames cc : ℤ) :
    List ℝ × PState :=
  if numFrames ≤ 0 then (buf, st)
  else
    let r := processPreClip p st buf numFrames.toNat cc.toNat
    ((r.1).map (fun x => cppClamp x (-1) 1), r.2)

/-- All seven delay-line write cursors of the engine state lie in
`[0, capacity)` for their respective buffers. -/
def cursorsInRange (st : PState) : Prop :=
  (0 ≤ st.delayWritePos ∧ st.delayWritePos < kMaxDelayFrames)
  ∧ (0 ≤ st.combPos1 ∧ st.combPos1 < kReverbBufferSize)
  ∧ (0 ≤ st.combPos2 ∧ st.combPos2 < kReverbBufferSize)
  ∧ (0 ≤ st.combPos3 ∧ st.combPos3 < kReverbBufferSize)
  ∧ (0 ≤ st.combPos4 ∧ st.combPos4 < kReverbBufferSize)
  ∧ (0 ≤ st.allpassPos1 ∧ st.allpassPos1 < kReverbBufferSize)
  ∧ (0 ≤ st.allpassPos2 ∧ st.allpassPos2 < kReverbBufferSize)

/-- The equalizer gain law exactly as the spec words it: linear gain
`10 ^ ((S / 10) / 20)` for a band-gain sum `S` in dB (refinement reference,
for comparison with `applyEqualizer` from the source). -/
def specEqGain (S : ℝ) : ℝ := (10 : ℝ) ^ ((S / 10) / 20)

/-- Band configuration refuting the claim that `S` is the sum of all 10
band gains: band 0 at 6 dB, band 1 at 0.05 dB (below the 0.1 dB magnitude
threshold), all others 0. -/
def cexBands : ℤ → ℝ := fun i => if i = 0 then 6 else if i = 1 then 0.05 else 0

-- ================== Helper lemmas ==================

theorem abs_tanh_lt_one (x : ℝ) : |Real.tanh x| < 1 := by
  have h1 : Real.sinh x < Real.cosh x := Real.sinh_lt_cosh x
  have h2 : -Real.cosh x < Real.sinh x := by
    have h := Real.sinh_lt_cosh (-x)
    rw [Real.sinh_neg, Real.cosh_neg] at h
    linarith
  have hc := Real.cosh_pos x
  rw [Real.tanh_eq_sinh_div_cosh, abs_div, abs_of_pos hc, div_lt_one hc, abs_lt]
  exact ⟨h2, h1⟩

theorem cppClamp_eq_self {x lo hi : ℝ} (h1 : lo ≤ x) (h2 : x ≤ hi) : cppClamp x lo hi = x := by
  unfold cppClamp
  rw [max_eq_left h1, min_eq_left h2]

theorem abs_limiterSample_le {c : ℝ} (hc : 0 < c) (x : ℝ) : |limiterSample c x| ≤ c := by
  unfold limiterSample
  by_cases h : |x| > c
  · rw [if_pos h, abs_mul, abs_of_pos hc]
    calc c * |Real.tanh (x / c)| ≤ c * 1 :=
      mul_le_mul_of_nonneg_left (abs_tanh_lt_one _).le hc.le
    _ = c := mul_one c
  · rw [if_neg h]
    exact not_lt.mp h

theorem abs_cppClamp_le_one (x : ℝ) : |cppClamp x (-1) 1| ≤ 1 := by
  unfold cppClamp
  rw [abs_le]
  constructor
  · exact le_min (le_max_right x (-1)) (by norm_num)
  · exact min_le_right _ 1

/-- Mapping a function that fixes every element of a list is the identity. -/
theorem List_map_eq_self {f : ℝ → ℝ} :
    ∀ {l : List ℝ}, (∀ x ∈ l, f x = x) → l.map f = l := by
  intro l
  induction l with
  | nil => intro _; rfl
  | cons x xs ih =>
    intro h
    rw [List.map_cons, h x (by simp), ih (fun y hy => h y (by simp [hy]))]

/-- With every stage's skip condition triggered (all strengths zero, bands
zero, preset 0, separation 0.5, balance 0), stages 1-10 collapse and only the
unconditional limiter acts. -/
theorem processToLimiter_bypass (p : Params)
    (hlev : p.volumeLeveler = 0) (hbass : p.bassBoost = 0) (htreb : p.trebleBoost = 0)
    (heq : ∀ i : ℤ, p.equalizerBands i = 0) (hclar : p.clarity = 0) (htube : p.tubeWarmth = 0)
    (hspec : p.spectrumExtension = 0) (hcomp : p.compressorStrength = 0)
    (hloud : p.loudnessGain = 0) (hrev : p.reverbPreset = 0) (hvirt : p.virtualizer = 0)
    (hsur : p.surround3D = 0) (hsep : p.channelSeparation = 0.5) (hbal : p.stereoBalance = 0)
    (st : PState) (buf : List ℝ) (nf cc : ℕ) :
    processToLimiter p st buf nf cc = (applyLimiter p.limiterCeiling buf, st) := by
  have hg : ¬ eqHasGain p.equalizerBands := by
    simp only [eqHasGain, heq]
    norm_num
  unfold processToLimiter
  rw [hlev, hbass, htreb, hclar, htube, hspec, hcomp, hloud, hrev, hvirt, hsur, hsep, hbal]
  simp only [applyEqualizer, hg, if_false, ite_self]
  norm_num

/-- Bypass evaluation of the whole entry point: with volume 1 the master
volume stage is also skipped, leaving limiter-then-clip on every sample. -/
theorem processAudio_bypass (p : Params)
    (hlev : p.volumeLeveler = 0) (hbass : p.bassBoost = 0) (htreb : p.trebleBoost = 0)
    (heq : ∀ i : ℤ, p.equalizerBands i = 0) (hclar : p.clarity = 0) (htube : p.tubeWarmth = 0)
    (hspec : p.spectrumExtension = 0) (hcomp : p.compressorStrength = 0)
    (hloud : p.loudnessGain = 0) (hrev : p.reverbPreset = 0) (hvirt : p.virtualizer = 0)
    (hsur : p.surround3D = 0) (hsep : p.channelSeparation = 0.5) (hbal : p.stereoBalance = 0)
    (hvol : p.volume = 1)
    (st : PState) (buf : List ℝ) (nf cc : ℤ) (hnf : 0 < nf) :
    processAudio p st buf nf cc
      = (buf.map (fun x => cppClamp (limiterSample p.limiterCeiling x) (-1) 1), st) := by
  unfold processAudio
  rw [if_neg (by omega : ¬ nf ≤ 0)]
  unfold processPreClip
  rw [processToLimiter_bypass p hlev hbass htreb heq hclar htube hspec hcomp hloud hrev hvirt
    hsur hsep hbal st buf nf.toNat cc.toNat, hvol]
  norm_num [applyLimiter, List.map_map, Function.comp]

/-- C1 (corrected). With every effect strength 0, all equalizer bands 0,
reverb preset 0, balance 0, separation 0.5 and volume 1, `processAudio`
reduces to the unconditional limiter followed by the unconditional final hard
clip, with no processing-state change; in particular, whenever every input
sample already lies within the stored limiter ceiling (itself at most 1), the
output equals the input exactly. The claim's "only the final clip acts" is
false because the limiter stage always runs; see the counterexample. -/
theorem C1_bypass_amended (p : Params)
    (hlev : p.volumeLeveler = 0) (hbass : p.bassBoost = 0) (htreb : p.trebleBoost = 0)
    (heq : ∀ i : ℤ, p.equalizerBands i = 0) (hclar : p.clarity = 0) (htube : p.tubeWarmth = 0)
    (hspec : p.spectrumExtension = 0) (hcomp : p.compressorStrength = 0)
    (hloud : p.loudnessGain = 0) (hrev : p.reverbPreset = 0) (hvirt : p.virtualizer = 0)
    (hsur : p.surround3D = 0) (hsep : p.channelSeparation = 0.5) (hbal : p.stereoBalance = 0)
    (hvol : p.volume = 1)
    (st : PState) (buf : List ℝ) (nf cc : ℤ) (hnf : 0 < nf) :
    processAudio p st buf nf cc
      = (buf.map (fun x => cppClamp (limiterSample p.limiterCeiling x) (-1) 1), st)
    ∧ ((∀ x ∈ buf, |x| ≤ p.limiterCeiling) → p.limiterCeiling ≤ 1 →
        (processAudio p st buf nf cc).1 = buf) := by
  have h := processAudio_bypass p hlev hbass htreb heq hclar htube hspec hcomp hloud hrev
    hvirt hsur hsep hbal hvol st buf nf cc hnf
  refine ⟨h, fun hb hc1 => ?_⟩
  rw [h]
  apply List_map_eq_self
  intro x hx
  have hxc := hb x hx
  have hls : limiterSample p.limiterCeiling x = x := by
    unfold limiterSample
    rw [if_neg (not_lt.mpr hxc)]
  rw [hls]
  have habs := abs_le.mp hxc
  exact cppClamp_eq_self (by linarith) (by linarith)

/-- Witness for C1 at a concrete bypass configuration and buffer. -/
theorem C1_bypass_witness :
    processAudio defaultParams initState [0.5, -0.25] 1 2
      = ([0.5, -0.25].map (fun x => cppClamp (limiterSample defaultParams.limiterCeiling x) (-1) 1),
         initState)
    ∧ (processAudio defaultParams initState [0.5, -0.25] 1 2).1 = [0.5, -0.25] := by
  have h := C1_bypass_amended defaultParams rfl rfl rfl (fun _ => rfl) rfl rfl rfl rfl rfl rfl
    rfl rfl rfl rfl rfl initState [0.5, -0.25] 1 2 (by norm_num)
  refine ⟨h.1, h.2 ?_ ?_⟩
  · intro x hx
    have hc : defaultParams.limiterCeiling = 0.95 := rfl
    rw [hc]
    simp only [List.mem_cons, List.not_mem_nil, or_false] at hx
    rcases hx with h1 | h1 <;> rw [h1, abs_le] <;> exact ⟨by norm_num, by norm_num⟩
  · show (0.95 : ℝ) ≤ 1
    norm_num

/-- C1 counterexample: in the bypass configuration of the claim (the engine
default parameters, limiter ceiling 0.95), the input sample 0.97 is changed
by the always-running limiter even though the final hard clip alone would
leave it untouched — the output is not the input modulo the final clip. -/
theorem C1_bypass_counterexample :
    (processAudio defaultParams initState [0.97] 1 1).1 ≠ [cppClamp 0.97 (-1) 1] := by
  have h := processAudio_bypass defaultParams rfl rfl rfl (fun _ => rfl) rfl rfl rfl rfl rfl rfl
    rfl rfl rfl rfl rfl initState [0.97] 1 1 (by norm_num)
  rw [h]
  have hceil : defaultParams.limiterCeiling = 0.95 := rfl
  rw [hceil]
  have hls : limiterSample 0.95 0.97 = 0.95 * Real.tanh (0.97 / 0.95) := by
    unfold limiterSample
    rw [if_pos (by rw [abs_of_pos]; norm_num; norm_num)]
  have ht := abs_tanh_lt_one (0.97 / 0.95)
  have htl := abs_lt.mp ht
  have hv1 : 0.95 * Real.tanh (0.97 / 0.95) < 0.95 := by nlinarith [htl.2]
  have hv2 : -0.95 < 0.95 * Real.tanh (0.97 / 0.95) := by nlinarith [htl.1]
  have hcl : cppClamp (limiterSample 0.95 0.97) (-1) 1 = 0.95 * Real.tanh (0.97 / 0.95) := by
    rw [hls]
    exact cppClamp_eq_self (by linarith) (by linarith)
  have hcr : cppClamp 0.97 (-1) 1 = 0.97 := cppClamp_eq_self (by norm_num) (by norm_num)
  simp only [List.map_cons, List.map_nil, hcl, hcr, ne_eq, List.cons.injEq, and_true]
  intro hcontra
  nlinarith [hv1]

/-- C2 (confirmed). For every buffer and every positive limiter ceiling `c`
(every storable ceiling lies in [0.5, 1], hence is positive), every sample
after the limiter stage satisfies `|sample| ≤ c`; and for every parameter
set, state, buffer and positive frame count, every sample after the final
hard-clip loop of `processAudio` satisfies `|sample| ≤ 1`. -/
theorem C2_limiter_and_clip (c : ℝ) (hc : 0 < c) (buf : List ℝ)
    (p : Params) (st : PState) (buf2 : List ℝ) (nf cc : ℤ) (hnf : 0 < nf) :
    (∀ x ∈ applyLimiter c buf, |x| ≤ c)
    ∧ (∀ x ∈ (processAudio p st buf2 nf cc).1, |x| ≤ 1) := by
  constructor
  · intro x hx
    simp only [applyLimiter, List.mem_map] at hx
    obtain ⟨y, _, hy⟩ := hx
    rw [← hy]
    exact abs_limiterSample_le hc y
  · intro x hx
    unfold processAudio at hx
    rw [if_neg (by omega : ¬ nf ≤ 0)] at hx
    simp only [List.mem_map] at hx
    obtain ⟨y, _, hy⟩ := hx
    rw [← hy]
    exact abs_cppClamp_le_one y

/-- Witness for C2 at the default ceiling 0.95 and concrete buffers. -/
theorem C2_limiter_and_clip_witness :
    (∀ x ∈ applyLimiter 0.95 [2, -3], |x| ≤ 0.95)
    ∧ (∀ x ∈ (processAudio defaultParams initState [5] 1 1).1, |x| ≤ 1) :=
  C2_limiter_and_clip 0.95 (by norm_num) [2, -3] defaultParams initState [5] 1 1 (by norm_num)

/-- C5 (confirmed). With reverb preset 0 or wet mix below 0.01, the reverb
stage returns the buffer and the complete processing state unchanged: no comb
or allpass buffer is read or written and no cursor advances, whatever the
current state holds. -/
theorem C5_reverb_off (preset : ℤ) (wet : ℝ) (nf cc : ℕ) (st : PState) (buf : List ℝ)
    (h : preset = 0 ∨ wet < 0.01) :
    applyReverb preset wet nf cc st buf = (buf, st) := by
  unfold applyReverb
  rw [if_pos h]

/-- Witness for C5: preset 0 with a nonzero wet mix, nontrivial buffer. -/
theorem C5_reverb_off_witness :
    applyReverb 0 0.8 2 2 initState [1, 2, 3, 4] = ([1, 2, 3, 4], initState) :=
  C5_reverb_off 0 0.8 2 2 initState [1, 2, 3, 4] (Or.inl rfl)

/-- C8. The loudness makeup stage multiplies every sample by
`1 + loudnessGain * 1.5`, which at the knob maximum 1 is 2.5 — strictly above
the linear factor 2 (+6 dB) promised by the claim and by the code's own
adjacent comment ("Up to +6dB gain"): the code contradicts its documentation. -/
theorem C8_loudness_gain_bug :
    loudnessGainFactor 1 = 2.5
    ∧ ¬ loudnessGainFactor 1 ≤ 2
    ∧ ([1] : List ℝ).map (fun x => x * loudnessGainFactor 1) = [2.5] := by
  refine ⟨by norm_num [loudnessGainFactor], by norm_num [loudnessGainFactor], ?_⟩
  simp only [List.map_cons, List.map_nil, one_mul]
  norm_num [loudnessGainFactor]

/-- C10 (confirmed). `setEqualizerBand` with a band index outside [0, 9] is a
complete no-op: the whole parameter store — in particular every stored band
gain — is returned unchanged. -/
theorem C10_eq_band_oob_noop (e : Params) (b : ℤ) (g : ℝ) (hb : b < 0 ∨ 10 ≤ b) :
    setEqualizerBand e b g = e := by
  unfold setEqualizerBand
  rw [if_neg]
  intro hcon
  rcases hb with h | h
  · exact absurd hcon.1 (by omega)
  · have := hcon.2
    rw [kNumEqualizerBands] at this
    omega

/-- Witness for C10 at band index 12. -/
theorem C10_eq_band_oob_noop_witness :
    setEqualizerBand defaultParams 12 99 = defaultParams :=
  C10_eq_band_oob_noop defaultParams 12 99 (Or.inr (by norm_num))

/-- C6 (confirmed). `setSurroundMode 2` ("Movie") stores exactly
surround3D 0.7, roomSize 0.7, surroundLevel 0.6 and does not touch
headphoneSurround; for every mode other than 3 headphoneSurround is
unchanged, while mode 3 forces it on; and a subsequent `setRoomSize` call
still overrides that knob independently (clamping its input) while leaving
the other Movie values in place. -/
theorem C6_surround_mode_macro (e : Params) (m : ℤ) (x : ℝ) (hm : m ≠ 3) :
    (setSurroundMode e 2).surround3D = 0.7
    ∧ (setSurroundMode e 2).roomSize = 0.7
    ∧ (setSurroundMode e 2).surroundLevel = 0.6
    ∧ (setSurroundMode e m).headphoneSurround = e.headphoneSurround
    ∧ (setSurroundMode e 3).headphoneSurround = true
    ∧ (setRoomSize (setSurroundMode e 2) x).roomSize = cppClamp x 0 1
    ∧ (setRoomSize (setSurroundMode e 2) x).surround3D = 0.7
    ∧ (setRoomSize (setSurroundMode e 2) x).surroundLevel = 0.6 := by
  refine ⟨rfl, rfl, rfl, ?_, rfl, rfl, rfl, rfl⟩
  unfold setSurroundMode
  dsimp only
  split_ifs <;> first | rfl | simp_all

/-- Witness for C6 with mode 1 for the generic conjunct. -/
theorem C6_surround_mode_macro_witness :
    (setSurroundMode defaultParams 2).surround3D = 0.7
    ∧ (setSurroundMode defaultParams 2).roomSize = 0.7
    ∧ (setSurroundMode defaultParams 2).surroundLevel = 0.6
    ∧ (setSurroundMode defaultParams 1).headphoneSurround = defaultParams.headphoneSurround
    ∧ (setSurroundMode defaultParams 3).headphoneSurround = true
    ∧ (setRoomSize (setSurroundMode defaultParams 2) 0.25).roomSize = cppClamp 0.25 0 1
    ∧ (setRoomSize (setSurroundMode defaultParams 2) 0.25).surround3D = 0.7
    ∧ (setRoomSize (setSurroundMode defaultParams 2) 0.25).surroundLevel = 0.6 :=
  C6_surround_mode_macro defaultParams 1 0.25 (by norm_num)

/-- C3 (corrected). Every ordinary setter stores its input clamped to the
documented range (volume [0,2], strengths [0,1], band gain [-12,12] for a
valid band index, ceiling [0.5,1], balance [-1,1], tempo [0.5,2], pitch
[-12,12], reverb preset [0,6] with wet [0,1], modes [0,4]) — but, contrary to
the claim, `setCompressor` stores threshold/slope/attack/release entirely
unclamped, and `setCompressorStrength` derives threshold and slope from its
raw (unclamped) input, so out-of-range inputs reach the store through those
two setters. -/
theorem C3_setters_clamp_amended (e : Params) (x : ℝ) (n : ℤ) (t r a rl s : ℝ) :
    (setVolume e x).volume = cppClamp x 0 2
    ∧ (setBassBoost e x).bassBoost = cppClamp x 0 1
    ∧ (setVirtualizer e x).virtualizer = cppClamp x 0 1
    ∧ (0 ≤ n → n < 10 → (setEqualizerBand e n x).equalizerBands n = cppClamp x (-12) 12)
    ∧ (setLimiter e x).limiterCeiling = cppClamp x 0.5 1
    ∧ (setSurround3D e x).surround3D = cppClamp x 0 1
    ∧ (setRoomSize e x).roomSize = cppClamp x 0 1
    ∧ (setSurroundLevel e x).surroundLevel = cppClamp x 0 1
    ∧ (setSurroundMode e n).surroundMode = cppClampInt n 0 4
    ∧ (setHeadphoneType e n).headphoneType = cppClampInt n 0 4
    ∧ (setClarity e x).clarity = cppClamp x 0 1
    ∧ (setTubeWarmth e x).tubeWarmth = cppClamp x 0 1
    ∧ (setSpectrumExtension e x).spectrumExtension = cppClamp x 0 1
    ∧ (setStereoBalance e x).stereoBalance = cppClamp x (-1) 1
    ∧ (setChannelSeparation e x).channelSeparation = cppClamp x 0 1
    ∧ (setTrebleBoost e x).trebleBoost = cppClamp x 0 1
    ∧ (setVolumeLeveler e x).volumeLeveler = cppClamp x 0 1
    ∧ (setTempo e x).tempo = cppClamp x 0.5 2
    ∧ (setPitch e x).pitchSemitones = cppClamp x (-12) 12
    ∧ (setReverb e n x).reverbPreset = cppClampInt n 0 6
    ∧ (setReverb e n x).reverbWet = cppClamp x 0 1
    ∧ (setLoudnessGain e x).loudnessGain = cppClamp x 0 1
    ∧ (setDynamicRange e x).dynamicRange = cppClamp x 0 1
    ∧ (setCompressor e t r a rl).compressorThreshold = t
    ∧ (setCompressor e t r a rl).compressorRatio = r
    ∧ (setCompressor e t r a rl).compressorAttack = a
    ∧ (setCompressor e t r a rl).compressorRelease = rl
    ∧ (setCompressorStrength e s).compressorStrength = cppClamp s 0 1
    ∧ (setCompressorStrength e s).compressorThreshold = -20 + s * 10
    ∧ (setCompressorStrength e s).compressorRatio = 1 + s * 7 := by
  refine ⟨rfl, rfl, rfl, ?_, rfl, rfl, rfl, rfl, ?_, rfl, rfl, rfl, rfl, rfl, rfl, rfl, rfl,
    rfl, rfl, rfl, rfl, rfl, ?_, rfl, rfl, rfl, rfl, rfl, rfl, rfl⟩
  · intro h1 h2
    unfold setEqualizerBand
    rw [if_pos ⟨h1, by rw [kNumEqualizerBands]; exact h2⟩]
    exact Function.update_same n _ _
  · unfold setSurroundMode
    dsimp only
    split_ifs <;> rfl
  · unfold setDynamicRange
    dsimp only
    split_ifs <;> rfl

/-- Witness for C3: the spec's own examples, setVolume(-1) and
setEqualizerBand(0, 99). -/
theorem C3_setters_clamp_amended_witness :
    (setVolume defaultParams (-1)).volume = cppClamp (-1) 0 2
    ∧ (setEqualizerBand defaultParams 0 99).equalizerBands 0 = cppClamp 99 (-12) 12 := by
  have h := C3_setters_clamp_amended defaultParams 99 0 0 0 0 0 0
  refine ⟨(C3_setters_clamp_amended defaultParams (-1) 0 0 0 0 0 0).1, ?_⟩
  exact h.2.2.2.1 (by norm_num) (by norm_num)

/-- C3 counterexample: `setCompressor` stores the threshold -1000 dB without
clamping it into its documented range of [-20, -10] dB, so not every setter
clamps its input before storing. -/
theorem C3_setters_counterexample :
    (setCompressor defaultParams (-1000) 4 0.01 0.1).compressorThreshold = -1000
    ∧ ((-1000 : ℝ) < -20)
    ∧ (setCompressorStrength defaultParams 5).compressorThreshold = 30
    ∧ ((30 : ℝ) > -10) := by
  refine ⟨rfl, by norm_num, ?_, by norm_num⟩
  show -20 + (5 : ℝ) * 10 = 30
  norm_num

/-- Stages 1-10 and the limiter never read the volume knob. -/
theorem processToLimiter_volume_irrel (p : Params) (v : ℝ) (st : PState) (buf : List ℝ)
    (nf cc : ℕ) :
    processToLimiter { p with volume := v } st buf nf cc = processToLimiter p st buf nf cc := rfl

/-- C7 (corrected). Changing only the volume knob from `v1` to `v2` scales
every sample of the pre-clip output by exactly `v2 / v1` — PROVIDED `v1` is
positive and both volumes lie outside the skip dead zone `|v - 1| ≤ 0.001`
of the master-volume stage. Inside that dead zone the stage applies gain 1
instead of `v`, so the claimed exact ratio fails (see the counterexample). -/
theorem C7_volume_scaling_amended (p : Params) (v1 v2 : ℝ) (st : PState) (buf : List ℝ)
    (nf cc : ℕ) (h0 : 0 < v1) (h12 : v1 < v2)
    (hd1 : |v1 - 1| > 0.001) (hd2 : |v2 - 1| > 0.001) :
    (processPreClip { p with volume := v2 } st buf nf cc).1
      = ((processPreClip { p with volume := v1 } st buf nf cc).1).map (fun x => v2 / v1 * x) := by
  unfold processPreClip
  rw [processToLimiter_volume_irrel, processToLimiter_volume_irrel]
  have e2 : ({ p with volume := v2 } : Params).volume = v2 := rfl
  have e1 : ({ p with volume := v1 } : Params).volume = v1 := rfl
  rw [e1, e2, if_pos hd2, if_pos hd1]
  simp only [applyVolume, List.map_map]
  have hfun : ((fun x => v2 / v1 * x) ∘ fun x => x * v1) = fun x => x * v2 := by
    funext x
    simp only [Function.comp_apply]
    field_simp
    ring
  rw [hfun, processToLimiter_volume_irrel p v1 st buf nf cc]

/-- Witness for C7 with volumes 0.5 and 2 on a concrete buffer. -/
theorem C7_volume_scaling_amended_witness :
    (processPreClip { defaultParams with volume := 2 } initState [0.5] 1 1).1
      = ((processPreClip { defaultParams with volume := 0.5 } initState [0.5] 1 1).1).map
          (fun x => 2 / 0.5 * x) :=
  C7_volume_scaling_amended defaultParams 0.5 2 initState [0.5] 1 1 (by norm_num) (by norm_num)
    (by rw [abs_of_neg] <;> norm_num) (by rw [abs_of_pos] <;> norm_num)

/-- C7 counterexample: the stored volume 1.0005 falls in the master-volume
stage's skip dead zone, so the pre-clip output is NOT scaled by
`v2 / v1 = 2 / 1.0005` when the volume changes from 1.0005 to 2: on the
buffer [0.5] the two pre-clip outputs are [1] and [0.5], and
`2 / 1.0005 * 0.5 ≠ 1`. -/
theorem C7_volume_counterexample :
    (processPreClip { defaultParams with volume := 2 } initState [0.5] 1 1).1 = [1]
    ∧ (processPreClip { defaultParams with volume := 1.0005 } initState [0.5] 1 1).1 = [0.5]
    ∧ (2 : ℝ) / 1.0005 * 0.5 ≠ 1 := by
  have hbase := fun (v : ℝ) =>
    processToLimiter_bypass { defaultParams with volume := v } rfl rfl rfl (fun _ => rfl) rfl rfl
      rfl rfl rfl rfl rfl rfl rfl rfl initState [0.5] 1 1
  have h05 : ¬ |(0.5 : ℝ)| > 0.95 := by
    rw [abs_of_pos (by norm_num : (0 : ℝ) < 0.5)]
    norm_num
  have hlim : applyLimiter (0.95 : ℝ) [0.5] = [0.5] := by
    unfold applyLimiter limiterSample
    simp only [List.map_cons, List.map_nil]
    rw [if_neg h05]
  constructor
  · unfold processPreClip
    rw [hbase 2]
    rw [if_pos (by rw [abs_of_pos] <;> norm_num)]
    show applyVolume 2 (applyLimiter ({ defaultParams with volume := 2 } : Params).limiterCeiling
      [0.5]) = [1]
    have : ({ defaultParams with volume := 2 } : Params).limiterCeiling = 0.95 := rfl
    rw [this, hlim]
    unfold applyVolume
    simp only [List.map_cons, List.map_nil]
    norm_num
  constructor
  · unfold processPreClip
    rw [hbase 1.0005]
    rw [if_neg (by rw [abs_of_pos] <;> norm_num)]
    show applyLimiter ({ defaultParams with volume := (1.0005 : ℝ) } : Params).limiterCeiling
      [0.5] = [0.5]
    have : ({ defaultParams with volume := (1.0005 : ℝ) } : Params).limiterCeiling = 0.95 := rfl
    rw [this, hlim]
  · norm_num

/-- Accumulating a conditional sum by `foldl` equals the start value plus the
sum of the kept elements. -/
theorem foldl_accum_if (l : List ℝ) (a : ℝ) :
    l.foldl (fun acc g => if |g| > 0.1 then acc + g else acc) a
      = a + (l.map (fun g => if |g| > 0.1 then g else 0)).sum := by
  induction l generalizing a with
  | nil => simp
  | cons x xs ih =>
    rw [List.foldl_cons, ih, List.map_cons, List.sum_cons]
    by_cases h : |x| > 0.1
    · rw [if_pos h, if_pos h]
      ring
    · rw [if_neg h, if_neg h]
      ring

/-- The accumulated equalizer gain is the sum over the bands whose magnitude
exceeds 0.1 dB. -/
theorem eqTotalGain_eq (bands : ℤ → ℝ) :
    eqTotalGain bands
      = ((List.range 10).map (fun i => if |bands (i : ℤ)| > 0.1 then bands (i : ℤ) else 0)).sum := by
  unfold eqTotalGain
  rw [foldl_accum_if, zero_add, List.map_map]
  rfl

/-- C4 (corrected). The equalizer applies the uniform linear gain
`10 ^ ((S / 10) / 20)` — i.e. `specEqGain S` — where `S` is the sum of those
band gains whose magnitude exceeds 0.1 dB (NOT of all 10 band gains, see the
counterexample); when no band magnitude exceeds 0.1 dB the stage leaves the
buffer unchanged; and the claim's exemplar bands [+6, 0, ..., 0] yield
exactly the factor `10 ^ (0.6 / 20)` on every sample. -/
theorem C4_equalizer_amended (bands : ℤ → ℝ) (buf : List ℝ) :
    (eqHasGain bands →
      applyEqualizer bands buf = buf.map (fun x => x * specEqGain
        (((List.range 10).map
          (fun i => if |bands (i : ℤ)| > 0.1 then bands (i : ℤ) else 0)).sum)))
    ∧ (¬ eqHasGain bands → applyEqualizer bands buf = buf)
    ∧ applyEqualizer (fun i => if i = 0 then 6 else 0) buf
        = buf.map (fun x => x * (10 : ℝ) ^ ((0.6 : ℝ) / 20)) := by
  refine ⟨fun h => ?_, fun h => ?_, ?_⟩
  · unfold applyEqualizer
    rw [if_pos h, ← eqTotalGain_eq]
    rfl
  · unfold applyEqualizer
    rw [if_neg h]
  · have hg : eqHasGain (fun i => if i = 0 then 6 else 0) := by
      refine ⟨0, by simp, ?_⟩
      norm_num
    unfold applyEqualizer
    rw [if_pos hg]
    have hsum : eqTotalGain (fun i => if i = 0 then 6 else 0) = 6 := by
      rw [eqTotalGain_eq]
      simp only [List.range_succ, List.range_zero, List.nil_append, List.cons_append,
        List.map_append, List.map_cons, List.map_nil, List.sum_append, List.sum_cons,
        List.sum_nil]
      norm_num
    rw [hsum]
    norm_num

/-- Witness for C4: the two conditional conjuncts at concrete band settings. -/
theorem C4_equalizer_amended_witness :
    applyEqualizer cexBands [1]
      = [1].map (fun x => x * specEqGain
          (((List.range 10).map
            (fun i => if |cexBands (i : ℤ)| > 0.1 then cexBands (i : ℤ) else 0)).sum))
    ∧ applyEqualizer (fun _ => (0 : ℝ)) [1, 2] = [1, 2] := by
  constructor
  · exact (C4_equalizer_amended cexBands [1]).1
      ⟨0, by simp, by norm_num [cexBands, abs_of_pos]⟩
  · exact (C4_equalizer_amended (fun _ => (0 : ℝ)) [1, 2]).2.1 (by norm_num [eqHasGain])

/-- C4 counterexample: with band 0 at 6 dB and band 1 at 0.05 dB the sum of
all 10 band gains is 6.05, but the stage applies the factor derived from 6
alone (band 1 is under the 0.1 dB magnitude threshold), and the two factors
differ. -/
theorem C4_equalizer_counterexample :
    applyEqualizer cexBands [1] = [(10 : ℝ) ^ ((0.6 : ℝ) / 20)]
    ∧ ((List.range 10).map (fun i => cexBands (i : ℤ))).sum = 6.05
    ∧ (10 : ℝ) ^ ((0.6 : ℝ) / 20) ≠ (10 : ℝ) ^ (((6.05 : ℝ) / 10) / 20) := by
  refine ⟨?_, ?_, ?_⟩
  · have hg : eqHasGain cexBands := by
      refine ⟨0, by simp, ?_⟩
      norm_num [cexBands, abs_of_pos]
    unfold applyEqualizer
    rw [if_pos hg]
    have hsum : eqTotalGain cexBands = 6 := by
      rw [eqTotalGain_eq]
      simp only [List.range_succ, List.range_zero, List.nil_append, List.cons_append,
        List.map_append, List.map_cons, List.map_nil, List.sum_append, List.sum_cons,
        List.sum_nil]
      norm_num [cexBands, abs_of_pos]
    rw [hsum]
    simp only [List.map_cons, List.map_nil, one_mul]
    norm_num
  · simp only [List.range_succ, List.range_zero, List.nil_append, List.cons_append,
      List.map_append, List.map_cons, List.map_nil, List.sum_append, List.sum_cons,
      List.sum_nil]
    norm_num [cexBands]
  · apply ne_of_lt
    rw [Real.rpow_lt_rpow_left_iff (by norm_num : (1 : ℝ) < 10)]
    norm_num

/-- Truncated remainder of a nonnegative value by a positive modulus lies in
`[0, modulus)`. -/
theorem tmod_range {a b : ℤ} (ha : 0 ≤ a) (hb : 0 < b) : 0 ≤ a.tmod b ∧ a.tmod b < b :=
  ⟨Int.tmod_nonneg b ha, Int.tmod_lt_of_pos a hb⟩

/-- The headphone delay multiplier always lies in [0.7, 1.5]. -/
theorem headphoneDelayMultiplier_mem (hp : Bool) (t : ℤ) :
    0.7 ≤ headphoneDelayMultiplier hp t ∧ headphoneDelayMultiplier hp t ≤ 1.5 := by
  unfold headphoneDelayMultiplier
  split_ifs <;> norm_num

/-- A state predicate preserved by every step is preserved by `runFrames`. -/
theorem runFrames_inv {σ : Type} (P : σ → Prop) (cc : ℕ) (step : σ → List ℝ → List ℝ × σ)
    (hstep : ∀ s fr, P s → P (step s fr).2) :
    ∀ (n : ℕ) (s : σ) (buf : List ℝ), P s → P (runFrames cc step n s buf).2 := by
  intro n
  induction n with
  | zero =>
    intro s buf h
    simpa [runFrames] using h
  | succ k ih =>
    intro s buf h
    simp only [runFrames]
    exact ih _ _ (hstep _ _ h)

/-- One surround frame keeps every cursor in range. -/
theorem surroundStep_cursors (d1 d2 : ℤ) (g1 g2 g3 g4 g5 : ℝ) (hp : Bool)
    (st : PState) (fr : List ℝ) (h : cursorsInRange st) :
    cursorsInRange (surroundStep d1 d2 g1 g2 g3 g4 g5 hp st fr).2 := by
  unfold surroundStep
  rcases fr with _ | ⟨l, _ | ⟨r, rest⟩⟩
  · exact h
  · exact h
  · obtain ⟨⟨hw0, hw1⟩, hrest⟩ := h
    refine ⟨?_, hrest⟩
    exact tmod_range (by omega) (by rw [kMaxDelayFrames]; omega)

/-- One reverb frame keeps every cursor in range. -/
theorem reverbStep_cursors (cfg : ReverbConfig) (w d : ℝ) (cc : ℕ)
    (st : PState) (fr : List ℝ) (h : cursorsInRange st) :
    cursorsInRange (reverbStep cfg w d cc st fr).2 := by
  obtain ⟨hw, ⟨h10, h11⟩, ⟨h20, h21⟩, ⟨h30, h31⟩, ⟨h40, h41⟩, ⟨h50, h51⟩, ⟨h60, h61⟩⟩ := h
  unfold reverbStep
  have hk : (0 : ℤ) < kReverbBufferSize := by rw [kReverbBufferSize]; omega
  exact ⟨hw, tmod_range (by omega) hk, tmod_range (by omega) hk, tmod_range (by omega) hk,
    tmod_range (by omega) hk, tmod_range (by omega) hk, tmod_range (by omega) hk⟩

/-- C9 (corrected). Index safety holds: every delay-line read index and every
cursor advance is taken `tmod` the buffer capacity and lies in
`[0, capacity)`; the effective (post-`std::min`-clamp) surround delays lie
below the 2048-frame capacity for every stored room size and headphone
configuration; every reverb preset's comb/allpass delays lie strictly below
the 8192-sample reverb capacity; and both stateful delay stages preserve
in-range cursors across a whole call. The claim's further assertion that the
surround capacity is at least the delay any configuration can REQUEST is
false: the pre-clamp request can reach 2160 > 2048 (see the counterexample) —
safety there rests on the `std::min` clamp, not on the capacity. -/
theorem C9_index_safety_amended :
    (∀ pos d : ℤ, 0 ≤ pos → 0 ≤ d → d < kMaxDelayFrames →
      0 ≤ surroundReadPos pos d ∧ surroundReadPos pos d < kMaxDelayFrames)
    ∧ (∀ pos : ℤ, 0 ≤ pos →
      0 ≤ surroundAdvance pos ∧ surroundAdvance pos < kMaxDelayFrames)
    ∧ (∀ pos d : ℤ, 0 ≤ pos → 0 ≤ d → d < kReverbBufferSize →
      0 ≤ reverbReadPos pos d ∧ reverbReadPos pos d < kReverbBufferSize)
    ∧ (∀ pos : ℤ, 0 ≤ pos →
      0 ≤ reverbAdvance pos ∧ reverbAdvance pos < kReverbBufferSize)
    ∧ (∀ (roomSize : ℝ) (hp : Bool) (t : ℤ), 0 ≤ roomSize →
      0 ≤ min (surroundDelayRaw roomSize (headphoneDelayMultiplier hp t)) (kMaxDelayFrames - 1)
      ∧ min (surroundDelayRaw roomSize (headphoneDelayMultiplier hp t)) (kMaxDelayFrames - 1)
          < kMaxDelayFrames
      ∧ 0 ≤ min (itdDelayRaw (headphoneDelayMultiplier hp t)) (kMaxDelayFrames - 1)
      ∧ min (itdDelayRaw (headphoneDelayMultiplier hp t)) (kMaxDelayFrames - 1)
          < kMaxDelayFrames)
    ∧ (∀ preset : ℤ,
      (0 < (reverbConfig preset).combDelay1 ∧ (reverbConfig preset).combDelay1 < kReverbBufferSize)
      ∧ (0 < (reverbConfig preset).combDelay2 ∧ (reverbConfig preset).combDelay2 < kReverbBufferSize)
      ∧ (0 < (reverbConfig preset).combDelay3 ∧ (reverbConfig preset).combDelay3 < kReverbBufferSize)
      ∧ (0 < (reverbConfig preset).combDelay4 ∧ (reverbConfig preset).combDelay4 < kReverbBufferSize)
      ∧ (0 < (reverbConfig preset).allpassDelay1
          ∧ (reverbConfig preset).allpassDelay1 < kReverbBufferSize)
      ∧ (0 < (reverbConfig preset).allpassDelay2
          ∧ (reverbConfig preset).allpassDelay2 < kReverbBufferSize))
    ∧ (∀ (depth roomSize surroundLevel : ℝ) (hp : Bool) (hType : ℤ) (nf : ℕ)
        (st : PState) (buf : List ℝ), cursorsInRange st →
      cursorsInRange (applySurround3D depth roomSize surroundLevel hp hType nf st buf).2)
    ∧ (∀ (preset : ℤ) (wet : ℝ) (nf cc : ℕ) (st : PState) (buf : List ℝ), cursorsInRange st →
      cursorsInRange (applyReverb preset wet nf cc st buf).2) := by
  have hk2048 : (0 : ℤ) < kMaxDelayFrames := by rw [kMaxDelayFrames]; omega
  have hk8192 : (0 : ℤ) < kReverbBufferSize := by rw [kReverbBufferSize]; omega
  refine ⟨?_, ?_, ?_, ?_, ?_, ?_, ?_, ?_⟩
  · intro pos d hp hd hdc
    exact tmod_range (by omega) hk2048
  · intro pos hp
    exact tmod_range (by omega) hk2048
  · intro pos d hp hd hdc
    exact tmod_range (by omega) hk8192
  · intro pos hp
    exact tmod_range (by omega) hk8192
  · intro rs hp t hrs
    obtain ⟨hm1, hm2⟩ := headphoneDelayMultiplier_mem hp t
    have hx : (0 : ℝ) ≤ (0.5 + rs * 29.5) * 48.0 * headphoneDelayMultiplier hp t := by
      nlinarith
    have hraw : 0 ≤ surroundDelayRaw rs (headphoneDelayMultiplier hp t) := by
      unfold surroundDelayRaw cppTrunc
      rw [if_pos hx]
      exact Int.floor_nonneg.mpr hx
    have hy : (0 : ℝ) ≤ 15.0 * headphoneDelayMultiplier hp t := by nlinarith
    have hitd : 0 ≤ itdDelayRaw (headphoneDelayMultiplier hp t) := by
      unfold itdDelayRaw cppTrunc
      rw [if_pos hy]
      exact Int.floor_nonneg.mpr hy
    have hcap : kMaxDelayFrames - 1 < kMaxDelayFrames := by omega
    exact ⟨le_min hraw (by omega), lt_of_le_of_lt (min_le_right _ _) hcap,
      le_min hitd (by omega), lt_of_le_of_lt (min_le_right _ _) hcap⟩
  · intro preset
    unfold reverbConfig
    split_ifs <;> norm_num [kReverbBufferSize]
  · intro depth rs sl hp ht nf st buf h
    unfold applySurround3D
    dsimp only
    exact runFrames_inv cursorsInRange 2 _
      (fun s fr hs => surroundStep_cursors _ _ _ _ _ _ _ _ s fr hs) nf st buf h
  · intro preset wet nf cc st buf h
    unfold applyReverb
    split_ifs with hc
    · exact h
    · dsimp only
      exact runFrames_inv cursorsInRange cc _
        (fun s fr hs => reverbStep_cursors _ _ _ _ s fr hs) nf st buf h

/-- Witness for C9: concrete cursor/delay values and the zero-initialized
engine state. -/
theorem C9_index_safety_amended_witness :
    (0 ≤ surroundReadPos 5 100 ∧ surroundReadPos 5 100 < kMaxDelayFrames)
    ∧ (0 ≤ reverbReadPos 0 4091 ∧ reverbReadPos 0 4091 < kReverbBufferSize)
    ∧ (0 ≤ min (surroundDelayRaw 1 (headphoneDelayMultiplier true 3)) (kMaxDelayFrames - 1)
        ∧ min (surroundDelayRaw 1 (headphoneDelayMultiplier true 3)) (kMaxDelayFrames - 1)
            < kMaxDelayFrames)
    ∧ cursorsInRange (applySurround3D 0.7 0.5 0.5 false 0 3 initState [1, 2, 3, 4, 5, 6]).2
    ∧ cursorsInRange (applyReverb 3 0.5 2 2 initState [1, 2, 3, 4]).2 := by
  have hinit : cursorsInRange initState := by
    refine ⟨?_, ?_, ?_, ?_, ?_, ?_, ?_⟩ <;> constructor <;>
      norm_num [initState, kMaxDelayFrames, kReverbBufferSize]
  have h5 := (C9_index_safety_amended.2.2.2.2.1 1 true 3 (by norm_num))
  exact ⟨C9_index_safety_amended.1 5 100 (by omega) (by omega)
      (by rw [kMaxDelayFrames]; omega),
    C9_index_safety_amended.2.2.1 0 4091 (by omega) (by omega)
      (by rw [kReverbBufferSize]; omega),
    ⟨h5.1, h5.2.1⟩,
    C9_index_safety_amended.2.2.2.2.2.2.1 0.7 0.5 0.5 false 0 3 initState [1, 2, 3, 4, 5, 6]
      hinit,
    C9_index_safety_amended.2.2.2.2.2.2.2 3 0.5 2 2 initState [1, 2, 3, 4] hinit⟩

/-- C9 counterexample: with room size 1 (storable) and headphone surround on
with the open-back type 3 (storable), the surround stage REQUESTS a delay of
`(0.5 + 29.5) * 48 * 1.5 = 2160` frames, which exceeds the 2048-frame buffer
capacity — the request is only kept in bounds by the `std::min` clamp to
2047, so the capacity is not at least the maximum requestable delay. -/
theorem C9_index_counterexample :
    surroundDelayRaw 1 (headphoneDelayMultiplier true 3) = 2160
    ∧ kMaxDelayFrames < surroundDelayRaw 1 (headphoneDelayMultiplier true 3) := by
  have hm : headphoneDelayMultiplier true 3 = 1.5 := by
    norm_num [headphoneDelayMultiplier]
  have hval : surroundDelayRaw 1 (headphoneDelayMultiplier true 3) = 2160 := by
    rw [hm]
    unfold surroundDelayRaw cppTrunc
    rw [if_pos (by norm_num)]
    rw [show ((0.5 : ℝ) + 1 * 29.5) * 48.0 * 1.5 = ((2160 : ℤ) : ℝ) by norm_num]
    exact Int.floor_intCast 2160
  refine ⟨hval, ?_⟩
  rw [hval, kMaxDelayFrames]
  omega
